import Mathlib

/-!
Shallow embedding of the reconciliation and classification core of the
procurement dashboard (`src/app.py`): the category resolver
(`derive_category`), the lifecycle classifiers (`is_pr_open`,
`is_po_open_delivery`), the metrics aggregator (`compute_metrics`) and the
dashboard filter pipeline (`within_date` and the membership filters).

Tables are modelled as a column-name list plus a list of rows; a row is an
association list from column name to a cell value.  A missing association
models a missing column entry; `Cell.na` models a pandas `NaN`/`None` value
stored in a present column.  Python's `str()` of `NaN` is the string
`"nan"`, which the model reproduces.  Quantities are modelled with exact
rationals standing in for Python floats; `pd.to_datetime` is abstracted by
a parser for the unambiguous `d-m-y` / `y-m-d` digit forms, with every
other input coercing to `na` (the `errors='coerce'` behaviour); no claim
below depends on the string-level details of date parsing.
-/

namespace Dashboard

/-- A scalar value held in one cell of a table. -/
inductive Cell where
  | na : Cell
  | str : String → Cell
  | num : Rat → Cell
  | date : Int → Cell
  | bool : Bool → Cell
deriving DecidableEq, Repr

/-- A row: association list from column name to cell value. -/
abbrev RawRow := List (String × Cell)

/-- A table: pandas DataFrame reduced to its column labels and rows. -/
structure Table where
  cols : List String
  rows : List RawRow
deriving DecidableEq, Repr

def emptyTable : Table := { cols := [], rows := [] }

/-- Pandas `df.empty`: true when either axis has length zero. -/
def tblEmpty (t : Table) : Bool := t.rows.isEmpty || t.cols.isEmpty

/-- Look up a column value in a row (pandas `row[c]` / `c in row`). -/
def rowGet (r : RawRow) (c : String) : Option Cell :=
  (r.find? fun p => p.1 == c).map Prod.snd

/-- Python `str()` of a cell value; `str(nan) = "nan"`. -/
def cellStr : Cell → String
  | .na => "nan"
  | .str s => s
  | .num q => toString q
  | .date d => toString d
  | .bool b => if b then "True" else "False"

/-- Python `str.lower()` (ASCII case mapping), written over the character
list so that it evaluates by kernel reduction. -/
def strLower (s : String) : String := ⟨s.data.map Char.toLower⟩

/-- Python `str.strip()`: drop whitespace from both ends, written over the
character list so that it evaluates by kernel reduction. -/
def strTrim (s : String) : String :=
  ⟨((s.data.dropWhile Char.isWhitespace).reverse.dropWhile Char.isWhitespace).reverse⟩

/-- Python `str(row.get(c, dflt))`: default when the column is absent from the row. -/
def getStr (r : RawRow) (c : String) (dflt : String) : String :=
  match rowGet r c with
  | none => dflt
  | some v => cellStr v

/-- Overwrite (or append) one column value in a row, as a pandas column
assignment does. -/
def setField (r : RawRow) (k : String) (v : Cell) : RawRow :=
  (r.filter fun p => p.1 ≠ k) ++ [(k, v)]

/-- Dictionary lookup on an association list (first binding wins, as keys
are unique in a Python dict). -/
def mapLookup (m : List (String × String)) (k : String) : Option String :=
  (m.find? fun p => p.1 == k).map Prod.snd

/-- The column-mapper sentinel for an unmapped canonical field. -/
def notMapped : String := "— not mapped —"

/-- Persisted configuration (the parts the core reads). -/
structure Config where
  date_format : String
  pr_open_statuses : List String
  po_open_delivery_statuses : List String
  category_mapping : List (String × String)

def REQUIRED_PRS_FIELDS : List String := ["PR_Number", "PR_Date", "PR_Status"]
def OPTIONAL_PRS_FIELDS : List String :=
  ["PR_Amount", "Material_Group", "Cost_Center", "Item_Type", "Category"]
def REQUIRED_POS_FIELDS : List String :=
  ["PO_Number", "PO_Date", "PO_Status", "Delivery_Status"]
def OPTIONAL_POS_FIELDS : List String :=
  ["Vendor", "PO_Quantity", "GRN_Quantity", "PR_Number", "PR_Line", "Category"]

/-! ## Category derivation (`derive_category`, app.py lines 132-151) -/

def CATEGORIES : List String := ["MRO", "Services", "Capex", "PCM"]

def keyFields : List String := ["Material_Group", "Cost_Center", "Item_Type"]

/-- The tier-2 loop of `derive_category`: walk the key fields in order,
returning the first valid looked-up category and falling through
otherwise. -/
def lookupKeyFields (row : RawRow) (mapping cfg_mapping : List (String × String)) :
    List String → Option String
  | [] => none
  | f :: fs =>
    match mapLookup mapping f with
    | some col =>
      if col ≠ "" ∧ col ≠ notMapped then
        match mapLookup cfg_mapping (strTrim (getStr row col "")) with
        | some mapped_cat =>
          if mapped_cat ∈ CATEGORIES then some mapped_cat
          else lookupKeyFields row mapping cfg_mapping fs
        | none => lookupKeyFields row mapping cfg_mapping fs
      else lookupKeyFields row mapping cfg_mapping fs
    | none => lookupKeyFields row mapping cfg_mapping fs

/-- Source `derive_category(row, mapping, cfg_mapping)`: explicit Category column
first, then the key-field lookup loop, else `None` (unknown). -/
def derive_category (row : RawRow) (mapping cfg_mapping : List (String × String)) :
    Option String :=
  match mapLookup mapping "Category" with
  | some cat_col =>
    if cat_col ≠ "" ∧ cat_col ≠ notMapped then
      let val := strTrim (getStr row cat_col "")
      if val ∈ CATEGORIES then some val
      else lookupKeyFields row mapping cfg_mapping keyFields
    else lookupKeyFields row mapping cfg_mapping keyFields
  | none => lookupKeyFields row mapping cfg_mapping keyFields

/-- Tier-1 of the resolution policy as the spec words it: the explicit
`Category` column, when mapped to a real column and holding (trimmed) one
of the four labels. -/
def tier1Match (row : RawRow) (mapping : List (String × String)) : Option String :=
  match mapLookup mapping "Category" with
  | some cat_col =>
    if cat_col ≠ "" ∧ cat_col ≠ notMapped then
      let val := strTrim (getStr row cat_col "")
      if val ∈ CATEGORIES then some val else none
    else none
  | none => none

/-- One tier-2 attempt as the spec words it: if the field is mapped, look
the row's trimmed value up in the category table and accept only one of
the four labels. -/
def fieldMatch (row : RawRow) (mapping cfg_mapping : List (String × String))
    (f : String) : Option String :=
  match mapLookup mapping f with
  | some col =>
    if col ≠ "" ∧ col ≠ notMapped then
      match mapLookup cfg_mapping (strTrim (getStr row col "")) with
      | some mapped_cat => if mapped_cat ∈ CATEGORIES then some mapped_cat else none
      | none => none
    else none
  | none => none

/-- The spec's ordered-tier policy, written as an explicit first-match
chain: tier 1, then `Material_Group`, `Cost_Center`, `Item_Type`. -/
def categorySpecOrdered (row : RawRow) (mapping cfg_mapping : List (String × String)) :
    Option String :=
  (tier1Match row mapping).orElse fun _ =>
    (fieldMatch row mapping cfg_mapping "Material_Group").orElse fun _ =>
      (fieldMatch row mapping cfg_mapping "Cost_Center").orElse fun _ =>
        fieldMatch row mapping cfg_mapping "Item_Type"

/-! ## Lifecycle classifiers (app.py lines 224-254) -/

/-- Source `pos["PR_Number"].dropna().astype(str).str.strip()` collected into the
linked-PR set, guarded by the column's presence (app.py lines 224-227). -/
def linked_prs (pos : Table) : List String :=
  if "PR_Number" ∈ pos.cols then
    pos.rows.filterMap fun r =>
      match rowGet r "PR_Number" with
      | none => none
      | some .na => none
      | some v => some (strTrim (cellStr v))
  else []

/-- Source `is_pr_open(row)` (app.py lines 231-235), with the linked-PR set and
the lower-cased configured open statuses passed explicitly. -/
def is_pr_open (linked : List String) (pr_open_statuses : List String)
    (row : RawRow) : Bool :=
  let status := strLower (getStr row "PR_Status" "")
  let pr_no := strTrim (getStr row "PR_Number" "")
  let linkedB := decide (pr_no ∈ linked)
  (!decide (status = "closed")) || (!linkedB) || decide (status ∈ pr_open_statuses)

/-- Python `float()` applied to a cell, `None` on parse failure.  Strings
parse as optionally signed decimal numerals; `float(True) = 1.0`. -/
def toRat? : Cell → Option Rat
  | .num q => some q
  | .bool b => some (if b then 1 else 0)
  | .str s =>
    let t := strTrim s
    let sign : Rat := if t.startsWith "-" then -1 else 1
    let t := if t.startsWith "-" then t.drop 1 else t
    (match t.splitOn "." with
     | [a] => (a.toNat?).map fun n => sign * (n : Rat)
     | [a, b] =>
       match a.toNat?, b.toNat? with
       | some n, some f => some (sign * ((n : Rat) + (f : Rat) / ((10 : Rat) ^ b.length)))
       | _, _ => none
     | _ => none)
  | _ => none

/-- The outstanding-quantity trigger of `is_po_open_delivery` (app.py
lines 243-250): false unless both quantities are present, non-null and
numeric and their difference is strictly positive. -/
def outstandingQty (row : RawRow) : Bool :=
  match (rowGet row "PO_Quantity").bind toRat?, (rowGet row "GRN_Quantity").bind toRat? with
  | some q, some g => decide (q - g > 0)
  | _, _ => false

/-- Source `is_po_open_delivery(row)` (app.py lines 241-251), with the
lower-cased configured open-delivery statuses passed explicitly. -/
def is_po_open_delivery (po_open_statuses : List String) (row : RawRow) : Bool :=
  let status := strLower (getStr row "Delivery_Status" "")
  outstandingQty row || decide (status ∈ po_open_statuses) || decide (status = "open")

/-! ## Unification and aggregation (`compute_metrics`, app.py lines 175-269) -/

/-- Pandas `pd.to_datetime(..., errors='coerce')` abstracted: dates pass through,
digit strings in the selected day-first or ISO order parse to a comparable
`y*10000 + m*100 + d` code, everything else coerces to `na`. -/
def parse_date (cfg : Config) (c : Cell) : Cell :=
  match c with
  | .na => .na
  | .date d => .date d
  | .str s =>
    let dayfirst := cfg.date_format ≠ "yyyy-mm-dd"
    (match ((strTrim s).splitOn "-").map String.toNat? with
     | [some a, some b, some c] =>
       let y := if dayfirst then c else a
       let m := b
       let d := if dayfirst then a else c
       if 1 ≤ m ∧ m ≤ 12 ∧ 1 ≤ d ∧ d ≤ 31 then .date (y * 10000 + m * 100 + d : Int)
       else .na
     | _ => .na)
  | _ => .na

/-- Rename one column label through the raw→canonical dict; a Python dict
comprehension keeps the last binding for a duplicated raw key. -/
def renameOf (m : List (String × String)) (c : String) : String :=
  match (m.reverse.find? fun p => p.1 == c) with
  | some p => p.2
  | none => c

/-- Pandas `df.rename(columns=m)`: relabel the column list and every row key. -/
def rename (df : Table) (m : List (String × String)) : Table :=
  { cols := df.cols.map (renameOf m),
    rows := df.rows.map fun r => r.map fun p => (renameOf m p.1, p.2) }

/-- Apply a cell transformation down one column (`df[col].apply(f)`). -/
def mapCol (df : Table) (col : String) (f : Cell → Cell) : Table :=
  { df with rows := df.rows.map fun r => r.map fun p => if p.1 == col then (p.1, f p.2) else p }

/-- Source `unify(df, mapping, required, optional)` (app.py lines 201-211): rename
mapped fields to canonical names, then parse the date columns. -/
def unify (df : Table) (mapping : List (String × String))
    (required optional : List String) (cfg : Config) : Table :=
  if tblEmpty df then df
  else
    let m : List (String × String) := (required ++ optional).filterMap fun k =>
      match mapLookup mapping k with
      | some v => if v ≠ "" ∧ v ≠ notMapped then some (v, k) else none
      | none => none
    let df := rename df m
    let df := if "PR_Date" ∈ df.cols then mapCol df "PR_Date" (parse_date cfg) else df
    if "PO_Date" ∈ df.cols then mapCol df "PO_Date" (parse_date cfg) else df

/-- Assign a derived column (`df[k] = df.apply(f, axis=1)`). -/
def addCol (t : Table) (k : String) (f : RawRow → Cell) : Table :=
  { cols := if k ∈ t.cols then t.cols else t.cols ++ [k],
    rows := t.rows.map fun r => setField r k (f r) }

/-- A derived category value as stored in the column: `None` for unknown. -/
def catCell : Option String → Cell
  | none => .na
  | some s => .str s

/-- Unify, then derive the `Category` column when it is missing and the
table is non-empty (app.py lines 213-221). -/
def prepTable (df : Table) (mapping : List (String × String))
    (required optional : List String) (cfg : Config) : Table :=
  let u := unify df mapping required optional cfg
  if "Category" ∉ u.cols ∧ ¬ tblEmpty u then
    addCol u "Category" fun r => catCell (derive_category r mapping cfg.category_mapping)
  else u

/-- Count of `True` values in a boolean column (`df[col].sum()`). -/
def countTrue (t : Table) (col : String) : Nat :=
  (t.rows.filter fun r => rowGet r col == some (.bool true)).length

/-- The body of `compute_metrics` once at least one input table is given
(the Python `prs_df.copy() / pos_df.copy()` step, with an absent table
replaced by an empty frame). -/
def compute_metrics_core (prsIn posIn : Table)
    (pr_map po_map : List (String × String)) (cfg : Config) :
    List (String × Nat) × Table × Table :=
    let prs0 := prepTable prsIn pr_map REQUIRED_PRS_FIELDS OPTIONAL_PRS_FIELDS cfg
    let pos0 := prepTable posIn po_map REQUIRED_POS_FIELDS OPTIONAL_POS_FIELDS cfg
    let linked := linked_prs pos0
    let prs1 := addCol prs0 "Is_Open_PR" fun r =>
      .bool (is_pr_open linked (cfg.pr_open_statuses.map strLower) r)
    let pos1 :=
      if ¬ tblEmpty pos0 then
        addCol pos0 "Is_Open_Delivery_PO" fun r =>
          .bool (is_po_open_delivery (cfg.po_open_delivery_statuses.map strLower) r)
      else pos0
    let total_prs := if ¬ tblEmpty prs1 then prs1.rows.length else 0
    let total_pos := if ¬ tblEmpty pos1 then pos1.rows.length else 0
    let open_prs := if "Is_Open_PR" ∈ prs1.cols then countTrue prs1 "Is_Open_PR" else 0
    let open_pos :=
      if "Is_Open_Delivery_PO" ∈ pos1.cols then countTrue pos1 "Is_Open_Delivery_PO" else 0
    ([("Total PRs", total_prs), ("Total POs", total_pos),
      ("Open PRs", open_prs), ("Open Delivery POs", open_pos)], prs1, pos1)

/-- Source `compute_metrics(prs_df, pos_df, pr_map, po_map, cfg)` (app.py lines
175-269): empty results when both tables are absent, otherwise the core
computation over the (possibly defaulted-to-empty) tables. -/
def compute_metrics (prs_df pos_df : Option Table)
    (pr_map po_map : List (String × String)) (cfg : Config) :
    List (String × Nat) × Table × Table :=
  match prs_df, pos_df with
  | none, none => ([], emptyTable, emptyTable)
  | op, oq =>
    compute_metrics_core (op.getD emptyTable) (oq.getD emptyTable) pr_map po_map cfg

/-- Read a count from the metrics dict with default `0`
(`metrics.get(k, 0)`, as the dashboard reads it). -/
def metricsGet (m : List (String × Nat)) (k : String) : Nat :=
  ((m.find? fun p => p.1 == k).map Prod.snd).getD 0

/-! ## Filter engine (dashboard page, app.py lines 409-427) -/

/-- The inclusive date-range predicate used by `within_date`
(`(df[col] >= start) & (df[col] <= end)`); a null date compares false. -/
def dateOK (start stop : Int) (col : String) (r : RawRow) : Bool :=
  match rowGet r col with
  | some (.date d) => decide (start ≤ d) && decide (d ≤ stop)
  | _ => false

/-- Source `within_date(df, col, rng)` (app.py lines 409-413): a no-op when the
range is unset, the table is empty or the column is missing. -/
def within_date (df : Table) (col : String) (rng : Option (Int × Int)) : Table :=
  match rng with
  | none => df
  | some (start, stop) =>
    if tblEmpty df ∨ col ∉ df.cols then df
    else { df with rows := df.rows.filter (dateOK start stop col) }

/-- The category-membership predicate (`df['Category'].isin(cats)`); a
null category is never a member. -/
def catOK (cats : List String) (r : RawRow) : Bool :=
  match rowGet r "Category" with
  | some (.str s) => decide (s ∈ cats)
  | _ => false

/-- The category-membership filter (app.py lines 417-419): skipped when the
selection is empty or the `Category` column is missing. -/
def apply_category_filter (df : Table) (cats : List String) : Table :=
  if cats ≠ [] then
    if "Category" ∈ df.cols then { df with rows := df.rows.filter (catOK cats) }
    else df
  else df

/-- A generic value-membership filter (vendor/buyer/status, app.py lines
420-427): skipped when the selection is empty or the column is missing;
nulls never match (`NaN.isin` is false). -/
def member_filter (df : Table) (col : String) (sel : List Cell) : Table :=
  if sel ≠ [] ∧ col ∈ df.cols then
    { df with rows := df.rows.filter fun r =>
        match rowGet r col with
        | some .na => false
        | some v => decide (v ∈ sel)
        | none => false }
  else df

/-- The PR-side filter pipeline of the dashboard (app.py lines 415-427):
date range, category, buyer, PR status, in program order. -/
def apply_pr_filters (prs : Table) (rng : Option (Int × Int)) (cats : List String)
    (buyers : List Cell) (prStatuses : List Cell) : Table :=
  member_filter
    (member_filter (apply_category_filter (within_date prs "PR_Date" rng) cats)
      "Buyer" buyers)
    "PR_Status" prStatuses

/-- The PO-side filter pipeline of the dashboard (app.py lines 416-427):
date range, category, vendor, PO status, in program order. -/
def apply_po_filters (pos : Table) (rng : Option (Int × Int)) (cats : List String)
    (vendors : List Cell) (poStatuses : List Cell) : Table :=
  member_filter
    (member_filter (apply_category_filter (within_date pos "PO_Date" rng) cats)
      "Vendor" vendors)
    "PO_Status" poStatuses

/-! ## Theorems -/

/-- C1: For every PR row whose trimmed `PR_Number` does not appear in the
set of trimmed `PR_Number` values of the PO table, the lifecycle
classifier sets `Is_Open_PR` to true, whatever the row's `PR_Status`
value is. -/
theorem C1_unlinked_pr_is_open (pos : Table) (sts : List String) (row : RawRow)
    (h : strTrim (getStr row "PR_Number" "") ∉ linked_prs pos) :
    is_pr_open (linked_prs pos) sts row = true := by
  simp [is_pr_open, h]

/-- Witness for C1: a closed PR `"P2"` with no linked PO is open. -/
theorem C1_unlinked_pr_is_open_witness :
    (strTrim (getStr [("PR_Number", Cell.str "P2"), ("PR_Status", Cell.str "Closed")]
        "PR_Number" "")
      ∉ linked_prs { cols := ["PR_Number"], rows := [[("PR_Number", Cell.str "P1")]] })
    ∧ is_pr_open
        (linked_prs { cols := ["PR_Number"], rows := [[("PR_Number", Cell.str "P1")]] })
        ["open", "pending", "in progress"]
        [("PR_Number", Cell.str "P2"), ("PR_Status", Cell.str "Closed")] = true :=
  ⟨by decide, C1_unlinked_pr_is_open _ _ _ (by decide)⟩

/-- C2: For every PR row whose `PR_Status` equals `"closed"`
case-insensitively and whose trimmed `PR_Number` does appear among the PO
table's `PR_Number` values, `Is_Open_PR` is true iff that status string
(case-insensitively) is in the configured PR-open-status set — i.e. iff
`"closed"` appears in the lower-cased configured list. -/
theorem C2_closed_linked_pr_iff_configured (pos : Table) (cfgStatuses : List String)
    (row : RawRow)
    (hclosed : strLower (getStr row "PR_Status" "") = "closed")
    (hlinked : strTrim (getStr row "PR_Number" "") ∈ linked_prs pos) :
    is_pr_open (linked_prs pos) (cfgStatuses.map strLower) row = true
      ↔ "closed" ∈ cfgStatuses.map strLower := by
  simp [is_pr_open, hclosed, hlinked]

/-- Witness for C2: a linked PR with status `"Closed"` against the
configured open set `["Closed"]` is open, and `"closed"` is indeed in the
lower-cased configured set. -/
theorem C2_closed_linked_pr_iff_configured_witness :
    (strLower (getStr [("PR_Number", Cell.str "P1"), ("PR_Status", Cell.str "Closed")]
        "PR_Status" "") = "closed")
    ∧ (strTrim (getStr [("PR_Number", Cell.str "P1"), ("PR_Status", Cell.str "Closed")]
        "PR_Number" "")
      ∈ linked_prs { cols := ["PR_Number"], rows := [[("PR_Number", Cell.str "P1")]] })
    ∧ (is_pr_open
        (linked_prs { cols := ["PR_Number"], rows := [[("PR_Number", Cell.str "P1")]] })
        (["Closed"].map strLower)
        [("PR_Number", Cell.str "P1"), ("PR_Status", Cell.str "Closed")] = true
      ↔ "closed" ∈ ["Closed"].map strLower) :=
  ⟨by decide, by decide,
    C2_closed_linked_pr_iff_configured _ _ _ (by decide) (by decide)⟩

/-- C3: whenever both `PO_Quantity` and `GRN_Quantity` are present and
parse as numbers with a strictly positive difference,
`Is_Open_Delivery_PO` is true regardless of `Delivery_Status`; and when
either quantity is absent or unparseable, the outstanding-quantity
trigger is false (no error), so the verdict reduces to the status
triggers. -/
theorem C3_outstanding_quantity (sts : List String) (row : RawRow) :
    (∀ q g : Rat,
        (rowGet row "PO_Quantity").bind toRat? = some q →
        (rowGet row "GRN_Quantity").bind toRat? = some g →
        q - g > 0 →
        is_po_open_delivery sts row = true)
    ∧ ((rowGet row "PO_Quantity").bind toRat? = none ∨
          (rowGet row "GRN_Quantity").bind toRat? = none →
        outstandingQty row = false ∧
        is_po_open_delivery sts row =
          (decide (strLower (getStr row "Delivery_Status" "") ∈ sts) ||
            decide (strLower (getStr row "Delivery_Status" "") = "open"))) := by
  constructor
  · intro q g hq hg hpos
    simp [is_po_open_delivery, outstandingQty, hq, hg, hpos]
  · intro h
    have hout : outstandingQty row = false := by
      rcases h with h | h
      · simp [outstandingQty, h]
      · cases hq : (rowGet row "PO_Quantity").bind toRat? <;>
          simp [outstandingQty, h, hq]
    exact ⟨hout, by simp [is_po_open_delivery, hout]⟩

/-- Witness for C3: quantities 5 and 3 with a closed status yield an open
delivery verdict. -/
theorem C3_outstanding_quantity_witness :
    is_po_open_delivery []
      [("PO_Quantity", Cell.num 5), ("GRN_Quantity", Cell.num 3),
        ("Delivery_Status", Cell.str "Closed")] = true :=
  (C3_outstanding_quantity [] _).1 5 3 rfl rfl (by norm_num)

/-- C7 counterexample: a PR row with no `PR_Status` entry whose number is
linked to a PO (so the linkage trigger is false) is nevertheless marked
open — the `status != "closed"` trigger fires on the defaulted empty
status, contradicting the claim that an absent field's trigger does not
contribute to the open verdict. -/
theorem C7_absent_status_counterexample :
    rowGet [("PR_Number", Cell.str "P1")] "PR_Status" = none
    ∧ (strTrim (getStr [("PR_Number", Cell.str "P1")] "PR_Number" "")
        ∈ linked_prs { cols := ["PR_Number"], rows := [[("PR_Number", Cell.str "P1")]] })
    ∧ is_pr_open
        (linked_prs { cols := ["PR_Number"], rows := [[("PR_Number", Cell.str "P1")]] })
        ["open", "pending", "in progress"]
        [("PR_Number", Cell.str "P1")] = true := by
  decide

/-- C7 (amended): the classifiers are total, and an absent
`Delivery_Status`, `PO_Quantity` or `GRN_Quantity` contributes nothing to
the PO verdict (which reduces to testing the empty status string against
the configured set); but a PR row with `PR_Status` absent is always marked
open, because the defaulted empty status string is not `"closed"`. -/
theorem C7_absent_fields (linked sts posSts : List String) (prRow poRow : RawRow)
    (hpr : rowGet prRow "PR_Status" = none)
    (hds : rowGet poRow "Delivery_Status" = none)
    (hq : rowGet poRow "PO_Quantity" = none) :
    is_pr_open linked sts prRow = true
    ∧ outstandingQty poRow = false
    ∧ is_po_open_delivery posSts poRow = decide ("" ∈ posSts) := by
  have hout : outstandingQty poRow = false := by simp [outstandingQty, hq]
  have hlow : strLower "" = "" := by decide
  have hpst : getStr prRow "PR_Status" "" = "" := by simp [getStr, hpr]
  have hdst : getStr poRow "Delivery_Status" "" = "" := by simp [getStr, hds]
  refine ⟨?_, hout, ?_⟩
  · simp [is_pr_open, hpst, hlow]
  · simp [is_po_open_delivery, hdst, hlow, hout]

theorem orElse_none_right {α : Type} (o : Option α) : (o.orElse fun _ => none) = o := by
  cases o <;> rfl

theorem lookupKeyFields_cons (row : RawRow) (mapping cfg_mapping : List (String × String))
    (f : String) (fs : List String) :
    lookupKeyFields row mapping cfg_mapping (f :: fs)
      = (fieldMatch row mapping cfg_mapping f).orElse
          fun _ => lookupKeyFields row mapping cfg_mapping fs := by
  cases h : mapLookup mapping f with
  | none => simp [lookupKeyFields, fieldMatch, h, Option.orElse]
  | some col =>
    by_cases hc : col ≠ "" ∧ col ≠ notMapped
    · cases h2 : mapLookup cfg_mapping (strTrim (getStr row col "")) with
      | none => simp [lookupKeyFields, fieldMatch, h, hc, h2, Option.orElse]
      | some mc =>
        by_cases h3 : mc ∈ CATEGORIES <;>
          simp [lookupKeyFields, fieldMatch, h, hc, h2, h3, Option.orElse]
    · simp [lookupKeyFields, fieldMatch, h, hc, Option.orElse]

theorem derive_category_eq_tier1 (row : RawRow)
    (mapping cfg_mapping : List (String × String)) :
    derive_category row mapping cfg_mapping
      = (tier1Match row mapping).orElse
          fun _ => lookupKeyFields row mapping cfg_mapping keyFields := by
  unfold derive_category tier1Match
  cases h : mapLookup mapping "Category" with
  | none => simp only [h, Option.orElse]
  | some cat_col =>
    by_cases hc : cat_col ≠ "" ∧ cat_col ≠ notMapped
    · by_cases hv : strTrim (getStr row cat_col "") ∈ CATEGORIES <;>
        simp only [h, hc, hv, if_pos, if_neg, if_true, if_false, Option.orElse] <;> simp [hc, hv]
    · simp only [h, Option.orElse]
      simp [hc]

/-- C4: the Category Resolver evaluates its tiers in strict order — it
agrees everywhere with the explicit first-match chain (explicit `Category`
column, then `Material_Group`, `Cost_Center`, `Item_Type` through the
lookup table), and whenever tier 1 yields a label the result is that label
for every lookup table, i.e. the lookup table is never consulted. -/
theorem C4_tier_order (row : RawRow) (mapping cfg_mapping : List (String × String)) :
    derive_category row mapping cfg_mapping = categorySpecOrdered row mapping cfg_mapping
    ∧ ∀ v, tier1Match row mapping = some v →
        ∀ cfg2 : List (String × String), derive_category row mapping cfg2 = some v := by
  constructor
  · have hk : lookupKeyFields row mapping cfg_mapping keyFields
        = (fieldMatch row mapping cfg_mapping "Material_Group").orElse fun _ =>
            (fieldMatch row mapping cfg_mapping "Cost_Center").orElse fun _ =>
              fieldMatch row mapping cfg_mapping "Item_Type" := by
      rw [show keyFields = ["Material_Group", "Cost_Center", "Item_Type"] from rfl,
        lookupKeyFields_cons, lookupKeyFields_cons, lookupKeyFields_cons]
      simp only [lookupKeyFields, orElse_none_right]
    rw [derive_category_eq_tier1]
    unfold categorySpecOrdered
    rw [hk]
  · intro v hv cfg2
    rw [derive_category_eq_tier1, hv]
    rfl

/-- Witness for C4: on a row whose explicit Category cell reads
`" Capex "` while the lookup table would send its `Material_Group` to
`"MRO"`, the resolver returns `"Capex"` for any lookup table. -/
theorem C4_tier_order_witness :
    derive_category [("Cat", Cell.str " Capex "), ("MG", Cell.str "k")]
        [("Category", "Cat"), ("Material_Group", "MG")] [("k", "MRO")]
      = categorySpecOrdered [("Cat", Cell.str " Capex "), ("MG", Cell.str "k")]
        [("Category", "Cat"), ("Material_Group", "MG")] [("k", "MRO")]
    ∧ derive_category [("Cat", Cell.str " Capex "), ("MG", Cell.str "k")]
        [("Category", "Cat"), ("Material_Group", "MG")] [("k", "MRO")] = some "Capex" :=
  ⟨(C4_tier_order _ _ _).1,
    (C4_tier_order [("Cat", Cell.str " Capex "), ("MG", Cell.str "k")]
        [("Category", "Cat"), ("Material_Group", "MG")] [("k", "MRO")]).2
      "Capex" (by decide) [("k", "MRO")]⟩

theorem fieldMatch_mem (row : RawRow) (mapping cfg_mapping : List (String × String))
    (f : String) (v : String) (h : fieldMatch row mapping cfg_mapping f = some v) :
    v ∈ CATEGORIES := by
  unfold fieldMatch at h
  cases hm : mapLookup mapping f with
  | none =>
    simp only [hm] at h
    exact Option.noConfusion h
  | some col =>
    simp only [hm] at h
    by_cases hc : col ≠ "" ∧ col ≠ notMapped
    · rw [if_pos hc] at h
      cases h2 : mapLookup cfg_mapping (strTrim (getStr row col "")) with
      | none =>
        simp only [h2] at h
        exact Option.noConfusion h
      | some mc =>
        simp only [h2] at h
        by_cases h3 : mc ∈ CATEGORIES
        · rw [if_pos h3] at h
          cases h
          exact h3
        · rw [if_neg h3] at h
          exact absurd h (by simp)
    · rw [if_neg hc] at h
      exact absurd h (by simp)

theorem tier1Match_mem (row : RawRow) (mapping : List (String × String))
    (v : String) (h : tier1Match row mapping = some v) : v ∈ CATEGORIES := by
  unfold tier1Match at h
  cases hm : mapLookup mapping "Category" with
  | none =>
    simp only [hm] at h
    exact Option.noConfusion h
  | some cat_col =>
    simp only [hm] at h
    by_cases hc : cat_col ≠ "" ∧ cat_col ≠ notMapped
    · rw [if_pos hc] at h
      by_cases hv : strTrim (getStr row cat_col "") ∈ CATEGORIES
      · rw [if_pos hv] at h
        cases h
        exact hv
      · rw [if_neg hv] at h
        exact absurd h (by simp)
    · rw [if_neg hc] at h
      exact absurd h (by simp)

theorem lookupKeyFields_mem_categories (row : RawRow)
    (mapping cfg_mapping : List (String × String)) :
    ∀ (fs : List String) (c : String),
      lookupKeyFields row mapping cfg_mapping fs = some c → c ∈ CATEGORIES := by
  intro fs
  induction fs with
  | nil => intro c h; exact absurd h (by simp [lookupKeyFields])
  | cons f fs ih =>
    intro c h
    rw [lookupKeyFields_cons] at h
    cases hf : fieldMatch row mapping cfg_mapping f with
    | none =>
      simp only [hf, Option.orElse] at h
      exact ih c h
    | some v =>
      simp only [hf, Option.orElse] at h
      injection h with h2
      subst h2
      exact fieldMatch_mem row mapping cfg_mapping f _ hf

/-- C5: whatever row, field mapping and lookup table are given, the
Category Resolver returns either `None` (the unknown marker) or one of the
four labels `MRO`, `Services`, `Capex`, `PCM` — never any other string. -/
theorem C5_resolver_range (row : RawRow) (mapping cfg_mapping : List (String × String))
    (c : String) (h : derive_category row mapping cfg_mapping = some c) :
    c ∈ CATEGORIES := by
  rw [derive_category_eq_tier1] at h
  cases ht : tier1Match row mapping with
  | none =>
    simp only [ht, Option.orElse] at h
    exact lookupKeyFields_mem_categories row mapping cfg_mapping keyFields c h
  | some v =>
    simp only [ht, Option.orElse] at h
    injection h with h2
    subst h2
    exact tier1Match_mem row mapping _ ht

/-- Witness for C5: the resolver maps `Material_Group = "STEEL-01"`
through the lookup table to `"MRO"`, which is one of the four labels. -/
theorem C5_resolver_range_witness :
    derive_category [("MG", Cell.str "STEEL-01")] [("Material_Group", "MG")]
        [("STEEL-01", "MRO")] = some "MRO"
    ∧ "MRO" ∈ CATEGORIES :=
  ⟨by decide,
    C5_resolver_range [("MG", Cell.str "STEEL-01")] [("Material_Group", "MG")]
      [("STEEL-01", "MRO")] "MRO" (by decide)⟩

/-- Witness for C7 (amended): rows with the relevant fields absent. -/
theorem C7_absent_fields_witness :
    is_pr_open [] [] [("PR_Number", Cell.str "P1")] = true
    ∧ outstandingQty [("PO_Number", Cell.str "PO1")] = false
    ∧ is_po_open_delivery ["open"] [("PO_Number", Cell.str "PO1")]
        = decide ("" ∈ ["open"]) :=
  C7_absent_fields [] [] ["open"] _ _ (by decide) (by decide) (by decide)

theorem tblEmpty_of_rows_nil {t : Table} (h : t.rows = []) : tblEmpty t = true := by
  simp [tblEmpty, h]

theorem unify_rows_nil {df : Table} (h : df.rows = [])
    (m : List (String × String)) (req opt : List String) (cfg : Config) :
    unify df m req opt cfg = df := by
  unfold unify
  rw [tblEmpty_of_rows_nil h]
  simp

theorem prepTable_rows_nil {df : Table} (h : df.rows = [])
    (m : List (String × String)) (req opt : List String) (cfg : Config) :
    prepTable df m req opt cfg = df := by
  simp only [prepTable]
  rw [unify_rows_nil h]
  simp [tblEmpty_of_rows_nil h]

theorem compute_metrics_core_empty (p q : Table)
    (pr_map po_map : List (String × String)) (cfg : Config)
    (hp : p.rows = []) (hq : q.rows = []) :
    (compute_metrics_core p q pr_map po_map cfg).1
      = [("Total PRs", 0), ("Total POs", 0), ("Open PRs", 0), ("Open Delivery POs", 0)]
    ∧ (compute_metrics_core p q pr_map po_map cfg).2.1.rows = []
    ∧ (compute_metrics_core p q pr_map po_map cfg).2.2.rows = [] := by
  simp only [compute_metrics_core]
  rw [prepTable_rows_nil hp, prepTable_rows_nil hq]
  simp [addCol, tblEmpty, countTrue, hp, hq]

/-- C6: when both the PR table and the PO table are absent or empty, the
Metrics Aggregator returns zero for all four counts (as read with the
dashboard's defaulted lookup) together with empty annotated tables; being
a total function it raises no exception. -/
theorem C6_empty_inputs (prs_df pos_df : Option Table)
    (pr_map po_map : List (String × String)) (cfg : Config)
    (h1 : ∀ t, prs_df = some t → t.rows = [])
    (h2 : ∀ t, pos_df = some t → t.rows = []) :
    metricsGet (compute_metrics prs_df pos_df pr_map po_map cfg).1 "Total PRs" = 0
    ∧ metricsGet (compute_metrics prs_df pos_df pr_map po_map cfg).1 "Total POs" = 0
    ∧ metricsGet (compute_metrics prs_df pos_df pr_map po_map cfg).1 "Open PRs" = 0
    ∧ metricsGet (compute_metrics prs_df pos_df pr_map po_map cfg).1 "Open Delivery POs" = 0
    ∧ (compute_metrics prs_df pos_df pr_map po_map cfg).2.1.rows = []
    ∧ (compute_metrics prs_df pos_df pr_map po_map cfg).2.2.rows = [] := by
  have key : ∀ (p q : Table), p.rows = [] → q.rows = [] →
      metricsGet (compute_metrics_core p q pr_map po_map cfg).1 "Total PRs" = 0
      ∧ metricsGet (compute_metrics_core p q pr_map po_map cfg).1 "Total POs" = 0
      ∧ metricsGet (compute_metrics_core p q pr_map po_map cfg).1 "Open PRs" = 0
      ∧ metricsGet (compute_metrics_core p q pr_map po_map cfg).1 "Open Delivery POs" = 0
      ∧ (compute_metrics_core p q pr_map po_map cfg).2.1.rows = []
      ∧ (compute_metrics_core p q pr_map po_map cfg).2.2.rows = [] := by
    intro p q hp hq
    obtain ⟨hm, hr1, hr2⟩ := compute_metrics_core_empty p q pr_map po_map cfg hp hq
    rw [hm]
    exact ⟨by decide, by decide, by decide, by decide, hr1, hr2⟩
  cases prs_df with
  | none =>
    cases pos_df with
    | none => exact ⟨rfl, rfl, rfl, rfl, rfl, rfl⟩
    | some q => exact key emptyTable q rfl (h2 q rfl)
  | some p =>
    cases pos_df with
    | none => exact key p emptyTable (h1 p rfl) rfl
    | some q => exact key p q (h1 p rfl) (h2 q rfl)

/-- Witness for C6: both tables absent. -/
theorem C6_empty_inputs_witness :
    metricsGet (compute_metrics none none [] [] ⟨"auto", [], [], []⟩).1 "Total PRs" = 0
    ∧ metricsGet (compute_metrics none none [] [] ⟨"auto", [], [], []⟩).1 "Total POs" = 0
    ∧ metricsGet (compute_metrics none none [] [] ⟨"auto", [], [], []⟩).1 "Open PRs" = 0
    ∧ metricsGet
        (compute_metrics none none [] [] ⟨"auto", [], [], []⟩).1 "Open Delivery POs" = 0
    ∧ (compute_metrics none none [] [] ⟨"auto", [], [], []⟩).2.1.rows = []
    ∧ (compute_metrics none none [] [] ⟨"auto", [], [], []⟩).2.2.rows = [] :=
  C6_empty_inputs none none [] [] ⟨"auto", [], [], []⟩
    (fun _ h => Option.noConfusion h) (fun _ h => Option.noConfusion h)

/-- C8: with every predicate empty or unset (no date range, no category,
vendor, buyer or status selection) the filter pipelines return their input
table unchanged, rows and order included. -/
theorem C8_empty_filters_identity (prs pos : Table) :
    apply_pr_filters prs none [] [] [] = prs
    ∧ apply_po_filters pos none [] [] [] = pos := by
  constructor <;>
    simp [apply_pr_filters, apply_po_filters, within_date, apply_category_filter,
      member_filter]

theorem filter_swap {α : Type} (p q : α → Bool) (l : List α) :
    (l.filter p).filter q = (l.filter q).filter p := by
  rw [List.filter_filter, List.filter_filter]
  exact List.filter_congr fun a _ => Bool.and_comm _ _

theorem within_date_cols (df : Table) (col : String) (rng : Option (Int × Int)) :
    (within_date df col rng).cols = df.cols := by
  cases rng with
  | none => rfl
  | some se =>
    obtain ⟨s, e⟩ := se
    simp only [within_date]
    split <;> rfl

theorem apply_category_filter_cols (df : Table) (cats : List String) :
    (apply_category_filter df cats).cols = df.cols := by
  unfold apply_category_filter
  split
  · split <;> rfl
  · rfl

/-- C9: the category-membership filter and the date-range filter commute —
applying one then the other yields the same filtered table (hence the same
row set) in either order. -/
theorem C9_category_date_commute (df : Table) (col : String)
    (rng : Option (Int × Int)) (cats : List String) :
    apply_category_filter (within_date df col rng) cats
      = within_date (apply_category_filter df cats) col rng := by
  cases rng with
  | none => rfl
  | some se =>
    obtain ⟨s, e⟩ := se
    obtain ⟨dcols, drows⟩ := df
    by_cases hcats : cats = []
    · subst hcats
      have h : ∀ t : Table, apply_category_filter t [] = t := fun t => by
        simp [apply_category_filter]
      rw [h, h]
    · by_cases hcat : "Category" ∈ dcols
      · by_cases hcol : col ∈ dcols
        · by_cases hrows : drows = []
          · subst hrows
            have hE : tblEmpty ⟨dcols, []⟩ = true := by simp [tblEmpty]
            have h1 : within_date ⟨dcols, []⟩ col (some (s, e)) = ⟨dcols, []⟩ := by
              simp only [within_date]
              rw [if_pos (Or.inl hE)]
            have h2 : apply_category_filter ⟨dcols, ([] : List RawRow)⟩ cats
                = ⟨dcols, []⟩ := by
              unfold apply_category_filter
              rw [if_pos hcats, if_pos hcat]
              rfl
            rw [h1, h2, h1]
          · have hne : drows.isEmpty = false := by
              cases drows with
              | nil => exact absurd rfl hrows
              | cons a l => rfl
            have hcE : dcols.isEmpty = false := by
              cases dcols with
              | nil => exact absurd hcat (by simp)
              | cons a l => rfl
            have hT : tblEmpty ⟨dcols, drows⟩ = false := by
              simp [tblEmpty, hne, hcE]
            have h1 : within_date ⟨dcols, drows⟩ col (some (s, e))
                = ⟨dcols, drows.filter (dateOK s e col)⟩ := by
              simp only [within_date]
              rw [if_neg (by simp [hT, hcol])]
            have h2 : apply_category_filter ⟨dcols, drows.filter (dateOK s e col)⟩ cats
                = ⟨dcols, (drows.filter (dateOK s e col)).filter (catOK cats)⟩ := by
              unfold apply_category_filter
              rw [if_pos hcats, if_pos hcat]
            have h3 : apply_category_filter ⟨dcols, drows⟩ cats
                = ⟨dcols, drows.filter (catOK cats)⟩ := by
              unfold apply_category_filter
              rw [if_pos hcats, if_pos hcat]
            rw [h1, h2, h3]
            by_cases hQ : drows.filter (catOK cats) = []
            · have h4 : within_date ⟨dcols, drows.filter (catOK cats)⟩ col (some (s, e))
                  = ⟨dcols, drows.filter (catOK cats)⟩ := by
                simp only [within_date]
                rw [if_pos (Or.inl (by simp [tblEmpty, hQ]))]
              have h5 : (drows.filter (dateOK s e col)).filter (catOK cats) = [] := by
                rw [filter_swap, hQ]
                rfl
              rw [h4, hQ, h5]
            · have hQne : (drows.filter (catOK cats)).isEmpty = false := by
                cases hqq : drows.filter (catOK cats) with
                | nil => exact absurd hqq hQ
                | cons a l => rfl
              have h4 : within_date ⟨dcols, drows.filter (catOK cats)⟩ col (some (s, e))
                  = ⟨dcols, (drows.filter (catOK cats)).filter (dateOK s e col)⟩ := by
                simp only [within_date]
                rw [if_neg (by simp [tblEmpty, hQne, hcE, hcol])]
              rw [h4, filter_swap]
        · have h1 : within_date ⟨dcols, drows⟩ col (some (s, e)) = ⟨dcols, drows⟩ := by
            simp only [within_date]
            rw [if_pos (Or.inr hcol)]
          have h2 : within_date (apply_category_filter ⟨dcols, drows⟩ cats) col
                (some (s, e))
              = apply_category_filter ⟨dcols, drows⟩ cats := by
            simp only [within_date]
            rw [if_pos (Or.inr (by rw [apply_category_filter_cols]; exact hcol))]
          rw [h1, h2]
      · have hA : ∀ t : Table, t.cols = dcols → apply_category_filter t cats = t := by
          intro t ht
          unfold apply_category_filter
          rw [if_pos hcats, if_neg (by rw [ht]; exact hcat)]
        rw [hA ⟨dcols, drows⟩ rfl]
        exact hA _ (within_date_cols ⟨dcols, drows⟩ col (some (s, e)))

theorem rowGet_setField_self (r : RawRow) (k : String) (v : Cell) :
    rowGet (setField r k v) k = some v := by
  unfold rowGet setField
  rw [List.find?_append]
  have h1 : (r.filter fun p => decide (p.1 ≠ k)).find? (fun p => p.1 == k) = none := by
    rw [List.find?_eq_none]
    intro p hp
    have h2 := (List.mem_filter.mp hp).2
    simp only [decide_eq_true_eq] at h2
    simp [h2]
  rw [h1]
  simp [List.find?]

theorem addCol_cols_mem {c k : String} (t : Table) (f : RawRow → Cell) (hck : c ≠ k) :
    c ∈ (addCol t k f).cols ↔ c ∈ t.cols := by
  unfold addCol
  by_cases hk : k ∈ t.cols <;> simp [hk, hck]

theorem prepTable_no_pr_number (df : Table) (m : List (String × String))
    (req opt : List String) (cfg : Config)
    (h : "PR_Number" ∉ (unify df m req opt cfg).cols) :
    "PR_Number" ∉ (prepTable df m req opt cfg).cols := by
  simp only [prepTable]
  split
  · rw [addCol_cols_mem _ _ (by decide)]
    exact h
  · exact h

theorem linked_prs_nil (pos : Table) (h : "PR_Number" ∉ pos.cols) :
    linked_prs pos = [] := by
  simp [linked_prs, h]

theorem is_pr_open_no_linked (sts : List String) (row : RawRow) :
    is_pr_open [] sts row = true := by
  simp [is_pr_open]

/-- C10: if the unified PO table has no `PR_Number` column at all, the
linked-PR set is empty, and every row of the annotated PR table produced
by the Metrics Aggregator carries `Is_Open_PR = true`, regardless of its
status. -/
theorem C10_no_pr_number_column (prs_df pos_df : Option Table)
    (pr_map po_map : List (String × String)) (cfg : Config)
    (h : "PR_Number" ∉ (unify (pos_df.getD emptyTable) po_map
        REQUIRED_POS_FIELDS OPTIONAL_POS_FIELDS cfg).cols) :
    ∀ r ∈ (compute_metrics prs_df pos_df pr_map po_map cfg).2.1.rows,
      rowGet r "Is_Open_PR" = some (.bool true) := by
  have hlink : linked_prs (prepTable (pos_df.getD emptyTable) po_map
      REQUIRED_POS_FIELDS OPTIONAL_POS_FIELDS cfg) = [] :=
    linked_prs_nil _ (prepTable_no_pr_number _ _ _ _ _ h)
  have hcore : ∀ (p : Table),
      ∀ r ∈ (compute_metrics_core p (pos_df.getD emptyTable) pr_map po_map cfg).2.1.rows,
        rowGet r "Is_Open_PR" = some (.bool true) := by
    intro p r hr
    simp only [compute_metrics_core, addCol, List.mem_map] at hr
    obtain ⟨r0, _, rfl⟩ := hr
    rw [rowGet_setField_self, hlink, is_pr_open_no_linked]
  cases prs_df with
  | none =>
    cases pos_df with
    | none =>
      intro r hr
      simp [compute_metrics, emptyTable] at hr
    | some q => exact hcore emptyTable
  | some p =>
    cases pos_df with
    | none => exact hcore p
    | some q => exact hcore p

/-- Witness for C10: a PO table with only a `PO_Number` column leaves the
closed PR `"P1"` annotated open. -/
theorem C10_no_pr_number_column_witness :
    ("PR_Number" ∉ (unify ((some (Table.mk ["PO_Number"]
          [[("PO_Number", Cell.str "PO1")]])).getD emptyTable) []
        REQUIRED_POS_FIELDS OPTIONAL_POS_FIELDS ⟨"auto", [], [], []⟩).cols)
    ∧ rowGet [("PR_Number", Cell.str "P1"), ("PR_Status", Cell.str "Closed"),
        ("Category", Cell.na), ("Is_Open_PR", Cell.bool true)] "Is_Open_PR"
      = some (.bool true) :=
  ⟨by decide,
    C10_no_pr_number_column
      (some (Table.mk ["PR_Number", "PR_Status"]
        [[("PR_Number", Cell.str "P1"), ("PR_Status", Cell.str "Closed")]]))
      (some (Table.mk ["PO_Number"] [[("PO_Number", Cell.str "PO1")]]))
      [] [] ⟨"auto", [], [], []⟩ (by decide)
      [("PR_Number", Cell.str "P1"), ("PR_Status", Cell.str "Closed"),
        ("Category", Cell.na), ("Is_Open_PR", Cell.bool true)]
      (by decide)⟩

end Dashboard
